import Mathlib

/-!
Shallow embedding of the recall pipeline of `rlm_claude_recall_mcp.py`
(the ccrecall repository).  Pure functions of the source become Lean
functions; the stateful recall handler is modelled by explicit parameters
for the backend connection outcome and the per-candidate search outcome.
Strings are modelled over ASCII (the Python code uses lowercasing, regex
word characters, and substring containment; over ASCII the Lean
counterparts agree).
-/

namespace CCRecall

/-! ### Constants (source lines 21-24) -/

def MAX_SESSION_BYTES : Nat := 500000

def MAX_LINES_PER_SESSION : Nat := 500

def MAX_SESSIONS_TO_SEARCH : Nat := 10

def MAX_RESULTS : Nat := 5

/-- The fixed stop-word set (source lines 26-38). -/
def STOP_WORDS : List String :=
  ["the", "a", "an", "is", "are", "was", "were", "be", "been", "being",
   "have", "has", "had", "do", "does", "did", "will", "would", "could",
   "should", "may", "might", "must", "shall", "can", "need", "dare",
   "ought", "used", "to", "of", "in", "for", "on", "with", "at", "by",
   "from", "as", "into", "through", "during", "before", "after", "above",
   "below", "between", "under", "again", "further", "then", "once", "here",
   "there", "when", "where", "why", "how", "all", "each", "few", "more",
   "most", "other", "some", "such", "no", "nor", "not", "only", "own",
   "same", "so", "than", "too", "very", "just", "and", "but", "if", "or",
   "because", "until", "while", "what", "which", "who", "this", "that",
   "these", "those", "am", "i", "my", "me", "you", "your", "it"]

/-! ### String primitives

Character-level counterparts of the Python string operations the code
uses (over ASCII these agree with the Python prefix test, lowercasing,
single-character replacement, containment and slicing). -/

/-- Whether `needle` starts `hay` (character lists). -/
def charsStartWith : List Char → List Char → Bool
  | [], _ => true
  | _ :: _, [] => false
  | a :: as, b :: bs => a == b && charsStartWith as bs

/-- Python `s.startswith(pre)`. -/
def strStartsWith (s pre : String) : Bool := charsStartWith pre.data s.data

/-- Whether `needle` occurs contiguously inside `hay` (character lists). -/
def charsHasSub (needle : List Char) : List Char → Bool
  | [] => needle.isEmpty
  | c :: cs => charsStartWith needle (c :: cs) || charsHasSub needle cs

/-- Python `needle in hay` for strings: contiguous substring containment. -/
def strContains (hay needle : String) : Bool := charsHasSub needle.data hay.data

/-- Python `s.lower()` (ASCII). -/
def strLower (s : String) : String := String.mk (s.data.map Char.toLower)

/-- Python `s[:n]`: the first `n` characters. -/
def strTake (s : String) (n : Nat) : String := String.mk (s.data.take n)

/-! ### Path decoding (source lines 40-47) -/

/-- Source `decode_path`: convert the encoded directory-name format back
to a filesystem path; passthrough when the input does not start with the
marker; otherwise drop the marker, replace every dash by a slash and
prepend a slash. -/
def decode_path (encoded : String) : String :=
  if ¬ strStartsWith encoded "-" then encoded
  else "/" ++ String.mk ((encoded.data.drop 1).map fun c => if c == '-' then '/' else c)

/-! ### Keyword extraction (source lines 60-63)

`re.findall` with a word-boundary pattern over the lowercased query
returns the maximal runs of word characters (ASCII letters, digits and
underscore). -/

def isWordChar (c : Char) : Bool := c.isAlphanum || c = '_'

/-- Maximal runs of word characters of a character list; `acc` holds the
current run reversed. -/
def splitWordsGo : List Char → List Char → List String
  | [], [] => []
  | [], acc => [String.mk acc.reverse]
  | c :: cs, acc =>
    if isWordChar c then splitWordsGo cs (c :: acc)
    else match acc with
      | [] => splitWordsGo cs []
      | _ :: _ => String.mk acc.reverse :: splitWordsGo cs []

/-- The word tokens of a string: the maximal runs of word characters. -/
def wordTokens (s : String) : List String := splitWordsGo s.data []

/-- Source `extract_keywords`: lowercase word tokens that are not stop
words and are longer than 2 characters. -/
def extract_keywords (query : String) : List String :=
  (wordTokens (strLower query)).filter fun w =>
    !STOP_WORDS.contains w && decide (2 < w.length)

/-! ### Python helpers -/

/-- Python truthiness of an optional string value: `None` and `""` are falsy. -/
def optFalsy : Option String → Bool
  | none => true
  | some s => s == ""

/-- Python `x or d` for an optional string `x` and a string default `d`. -/
def pyOr (s : Option String) (d : String) : String :=
  match s with
  | none => d
  | some v => if v == "" then d else v

/-- Python truthiness of an optional string: `Some s` with `s ≠ ""`. -/
def pyTruthyOpt (o : Option String) : Bool := !optFalsy o

/-! ### Session records and metadata extraction (source lines 297-332)

A transcript line is modelled by its parse outcome: `none` for a blank or
unparseable line, `some e` for a parsed JSON object restricted to the four
fields the code reads (`type`, `summary`, `timestamp`,
`message.model`). -/

structure Entry where
  type : Option String
  summary : Option String
  timestamp : Option String
  messageModel : Option String
deriving DecidableEq

/-- A session transcript file: stem (session id), per-line parse outcomes,
whether opening/reading it raises, its `stat` size in bytes, and its raw
lines (each with its terminator) for content reading. -/
structure SessFile where
  stem : String
  entries : List (Option Entry)
  ioError : Bool
  size : Nat
  rawLines : List String
deriving DecidableEq

structure SessionInfo where
  session_id : String
  project : String
  summary : String
  timestamp : Option String
  model : Option String
deriving DecidableEq

/-- The line loop of `extract_session_info`: accumulators for summary,
timestamp and model.  The summary assignment has no falsy guard; the
timestamp and model assignments fire only while the accumulator is falsy. -/
def extractLoop :
    List (Option Entry) → Option String → Option String → Option String →
    Option String × Option String × Option String
  | [], s, t, m => (s, t, m)
  | none :: rest, s, t, m => extractLoop rest s t m
  | some e :: rest, s, t, m =>
    if e.type == some "summary" then extractLoop rest e.summary t m
    else if e.type == some "user" && optFalsy t then extractLoop rest s e.timestamp m
    else if e.type == some "assistant" && optFalsy m then extractLoop rest s t e.messageModel
    else extractLoop rest s t m

/-- Source `extract_session_info`: metadata of a session file, `none` when
reading raises (the catch-all branch). -/
def extract_session_info (f : SessFile) (project_path : String) : Option SessionInfo :=
  if f.ioError then none
  else
    let r := extractLoop f.entries none none none
    some { session_id := f.stem
           project := project_path
           summary := pyOr r.1 "No summary available"
           timestamp := r.2.1
           model := r.2.2 }

/-- The summary accumulator of `extractLoop` in isolation: it is updated by
every summary-typed record and untouched by the other branches. -/
def summaryFold : List (Option Entry) → Option String → Option String
  | [], s => s
  | none :: rest, s => summaryFold rest s
  | some e :: rest, s =>
    if e.type == some "summary" then summaryFold rest e.summary
    else summaryFold rest s

/-- The last summary-typed parsed record of a transcript, if any. -/
def lastSummaryEntry : List (Option Entry) → Option Entry
  | [] => none
  | oe :: rest =>
    match lastSummaryEntry rest with
    | some en => some en
    | none =>
      match oe with
      | some en => if en.type == some "summary" then some en else none
      | none => none

/-! ### Content reading (source lines 334-344) -/

/-- Source `read_session_content`: the whole file when its size is within
`MAX_SESSION_BYTES`, otherwise the first `MAX_LINES_PER_SESSION` lines. -/
def read_session_content (f : SessFile) : String :=
  if f.size ≤ MAX_SESSION_BYTES then String.join f.rawLines
  else String.join (f.rawLines.take MAX_LINES_PER_SESSION)

/-! ### Result entries and deduplication (source lines 347-369) -/

structure ResultEntry where
  session_id : String
  project : String
  summary : String
  timestamp : Option String
  relevance : String
  excerpt : String
deriving DecidableEq

/-- Source `build_result_entry`. -/
def build_result_entry (session_info : SessionInfo) (relevance excerpt : String) :
    ResultEntry :=
  { session_id := session_info.session_id
    project := session_info.project
    summary := session_info.summary
    timestamp := session_info.timestamp
    relevance := relevance
    excerpt := excerpt }

/-- The loop of `deduplicate_results`: `seen` is the set of session ids of
`unique`; a new entry is appended before the cap check. -/
def dedupLoop (max_results : Nat) :
    List String → List ResultEntry → List ResultEntry → List ResultEntry
  | _, unique, [] => unique
  | seen, unique, r :: rs =>
    if seen.contains r.session_id then dedupLoop max_results seen unique rs
    else
      if max_results ≤ (unique ++ [r]).length then unique ++ [r]
      else dedupLoop max_results (r.session_id :: seen) (unique ++ [r]) rs

/-- Source `deduplicate_results`: unique results by `session_id`, up to
`max_results`. -/
def deduplicate_results (results : List ResultEntry) (max_results : Nat) :
    List ResultEntry :=
  dedupLoop max_results [] [] results

/-! ### Candidate filtering (source lines 372-398) -/

structure Project where
  name : String
  isDir : Bool
  sessions : List SessFile
deriving DecidableEq

structure Matching where
  file : SessFile
  info : SessionInfo
deriving DecidableEq

/-- The per-session keyword test of `find_matching_sessions`:
`keywords and any(kw in summary_lower for kw in keywords)`. -/
def sessionMatch (keywords : List String) (info : SessionInfo) : Bool :=
  let summary_lower := strLower (pyOr (some info.summary) "")
  !keywords.isEmpty && keywords.any fun kw => strContains summary_lower kw

/-- Stable descending insertion by a string key: `x` goes after every
earlier element whose key is not smaller. -/
def insertDesc (key : Matching → String) (x : Matching) : List Matching → List Matching
  | [] => [x]
  | y :: ys => if key y < key x then x :: y :: ys else y :: insertDesc key x ys

/-- Stable sort, descending by key (Python `list.sort(key=…, reverse=True)`). -/
def sortByKeyDesc (key : Matching → String) (l : List Matching) : List Matching :=
  l.foldl (fun acc x => insertDesc key x acc) []

/-- The sort key of `find_matching_sessions`: timestamp or `""`. -/
def tsKey (x : Matching) : String := pyOr x.info.timestamp ""

/-- The per-session-file body of the scan loop: extract metadata, keep the
file when its summary matches a keyword. -/
def sessionCandidate (keywords : List String) (project_path : String)
    (f : SessFile) : Option Matching :=
  match extract_session_info f project_path with
  | none => none
  | some info => if sessionMatch keywords info then some ⟨f, info⟩ else none

/-- The per-project body of the scan loop: skip non-directories and
filtered-out projects, otherwise append the matching sessions. -/
def projectStep (keywords : List String) (project_filter : Option String)
    (acc : List Matching) (p : Project) : List Matching :=
  if !p.isDir then acc
  else
    if pyTruthyOpt project_filter &&
       !(strContains (decode_path p.name) (project_filter.getD "")) then acc
    else acc ++ p.sessions.filterMap (sessionCandidate keywords (decode_path p.name))

/-- Source `find_matching_sessions`: sessions whose summary contains a keyword,
sorted by timestamp descending, capped at `MAX_SESSIONS_TO_SEARCH`. -/
def find_matching_sessions (projects : List Project) (keywords : List String)
    (project_filter : Option String) : List Matching :=
  (sortByKeyDesc tsKey
    (projects.foldl (projectStep keywords project_filter) [])).take
    MAX_SESSIONS_TO_SEARCH

/-! ### Backend response parsing (source lines 66-76)

A backend tool result is a duck-typed container: it may lack a `content`
attribute; each content item may lack a `text` attribute; a present text
may fail to parse as JSON.  The payload type is a parameter: `text = none`
means no `text` attribute, `some none` a text that fails to parse,
`some (some d)` a text parsing to `d`. -/

structure RContent (α : Type) where
  text : Option (Option α)

structure RResult (α : Type) where
  content : Option (List (RContent α))

def findParsedText {α : Type} : List (RContent α) → Option α
  | [] => none
  | item :: rest =>
    match item.text with
    | none => findParsedText rest
    | some none => findParsedText rest
    | some (some d) => some d

/-- Source `parse_rlm_json_response`: first content item whose text parses. -/
def parse_rlm_json_response {α : Type} (result : RResult α) : Option α :=
  match result.content with
  | none => none
  | some items => findParsedText items

/-! ### Batch sub-query dispatch (source lines 401-447)

The inspect response payload is a JSON object modelled at the granularity
the code consumes: an association list with integer values, looked up for
`chunk_count`.  An empty object is falsy in Python (`if data:`). -/

abbrev InspectDict := List (String × Int)

def dictLookupInt (d : InspectDict) (k : String) : Option Int :=
  (d.find? fun kv => kv.1 == k).map (·.2)

/-- The `chunk_count` computation of `search_session_with_rlm`
(source lines 424-427): default 1, overwritten only when the parsed
response is a truthy dict carrying the field. -/
def chunk_count_of (inspect_result : RResult InspectDict) : Int :=
  match parse_rlm_json_response inspect_result with
  | some data => if data.isEmpty then 1 else (dictLookupInt data "chunk_count").getD 1
  | none => 1

/-- Python `list(range(n))` for a (possibly negative) integer bound. -/
def pyRange (n : Int) : List Int := (List.range n.toNat).map Int.ofNat

structure BatchCallArgs where
  query : String
  context_name : String
  chunk_indices : List Int
  provider : String
  model : String
  concurrency : Nat
deriving DecidableEq

/-- The argument mapping of the `rlm_sub_query_batch` call
(source lines 429-436). -/
def batch_args (session_id : String) (query : String)
    (inspect_result : RResult InspectDict) : BatchCallArgs :=
  { query := "Find information relevant to: " ++ query
    context_name := "session_" ++ session_id
    chunk_indices := pyRange (min (chunk_count_of inspect_result) 5)
    provider := "claude-sdk"
    model := "claude-haiku-4-5-20251101"
    concurrency := 2 }

/-- One per-segment result of the batch response: `response` is `none` when
the field is absent or null. -/
structure SubResult where
  response : Option String
deriving DecidableEq

abbrev BatchDict := List (String × List SubResult)

/-- The result-entry construction from the batch response
(source lines 438-447): non-empty responses become semantic-match entries
with the excerpt capped at 500 characters. -/
def semantic_results (session_info : SessionInfo)
    (batch_result : RResult BatchDict) : List ResultEntry :=
  let rs : List SubResult := match parse_rlm_json_response batch_result with
    | some data =>
      if data.isEmpty then []
      else ((data.find? fun kv => kv.1 == "results").map (·.2)).getD []
    | none => []
  rs.filterMap fun r =>
    match r.response with
    | none => none
    | some resp =>
      if resp == "" then none
      else some (build_result_entry session_info "semantic_match" (strTake resp 500))

/-! ### The recall handler (source lines 450-510)

The backend connection outcome and the per-candidate semantic search are
the two effectful parts; they are passed as explicit parameters.  `search`
models `search_session_with_rlm` for a connected client: a list of result
entries, or the message of a raised exception. -/

inductive ConnOutcome where
  | connected
  | unavailable (msg : String)

structure RlmEnv where
  connect : ConnOutcome
  search : Matching → String → Except String (List ResultEntry)

/-- The synthetic entry for a candidate whose processing raised `e`
(source lines 503-505). -/
def errorEntry (session : Matching) (e : String) : ResultEntry :=
  build_result_entry session.info "keyword_match"
    ("Error during semantic search: " ++ strTake e 100)

/-- The per-candidate loop of `handle_memory_recall`
(source lines 496-505). -/
def searchResultsLoop (env : RlmEnv) (query : String)
    (sessions : List Matching) : List ResultEntry :=
  sessions.foldl (fun results session =>
    match env.search session query with
    | .ok rs => results ++ rs
    | .error e => results ++ [errorEntry session e]) []

/-- What one candidate contributes to the accumulated results. -/
def candidateContribution (env : RlmEnv) (query : String)
    (session : Matching) : List ResultEntry :=
  match env.search session query with
  | .ok rs => rs
  | .error e => [errorEntry session e]

/-- A recall response: either the structured `MISSING_QUERY` error object,
or a results object with its optional `note` and `suggestion` fields. -/
inductive RecallResult where
  | err (error message : String)
  | ok (results : List ResultEntry) (total_sessions_searched : Nat)
       (note : Option String) (suggestion : Option String)
deriving DecidableEq

/-- Python `repr` of a list of strings, as interpolated into the
no-matches suggestion. -/
def pyQuote (s : String) : String :=
  String.singleton (Char.ofNat 39) ++ s ++ String.singleton (Char.ofNat 39)

def pyStrListRepr (ks : List String) : String :=
  "[" ++ String.intercalate ", " (ks.map pyQuote) ++ "]"

/-- Source `handle_memory_recall`; `projects_dir` is `none` when the corpus
root does not exist. -/
def handle_memory_recall (env : RlmEnv) (projects_dir : Option (List Project))
    (query : String) (project_filter : Option String) : RecallResult :=
  if query == "" then .err "MISSING_QUERY" "Query parameter is required"
  else match projects_dir with
  | none => .ok [] 0 none (some "No Claude projects directory found")
  | some projects =>
    let keywords := extract_keywords query
    let top_sessions := find_matching_sessions projects keywords project_filter
    if top_sessions.isEmpty then
      .ok [] 0 none
        (some ("No sessions found matching keywords: " ++ pyStrListRepr keywords ++
               ". Try broader terms."))
    else match env.connect with
    | .unavailable _ =>
      .ok ((top_sessions.take MAX_RESULTS).map fun s =>
             build_result_entry s.info "keyword_match"
               "RLM unavailable - showing keyword matches only")
          top_sessions.length
          (some "Semantic search unavailable - showing keyword matches") none
    | .connected =>
      .ok (deduplicate_results (searchResultsLoop env query top_sessions) MAX_RESULTS)
          top_sessions.length none none

/-! ### Spec-side reference for deduplication

Follows the words of the spec ("keep the first occurrence per session
identifier, in arrival order", with no cap), for comparison with the
`deduplicate_results` of the source. -/

def firstOccurrences : List String → List ResultEntry → List ResultEntry
  | _, [] => []
  | seen, r :: rs =>
    if seen.contains r.session_id then firstOccurrences seen rs
    else r :: firstOccurrences (r.session_id :: seen) rs

/-! ### Concrete inputs for witnesses and counterexamples -/

/-- A summary-typed record carrying "First summary". -/
def cxSummaryA : Entry := ⟨some "summary", some "First summary", none, none⟩

/-- A summary-typed record carrying "Second summary". -/
def cxSummaryB : Entry := ⟨some "summary", some "Second summary", none, none⟩

/-- A session file holding two parseable summary records, in this order. -/
def cxTwoSummaries : SessFile :=
  ⟨"s1", [some cxSummaryA, some cxSummaryB], false, 20, []⟩

/-- A result entry used by dedup witnesses and counterexamples. -/
def cxEntry : ResultEntry := ⟨"sid1", "/p", "sum", none, "semantic_match", "e1"⟩

/-- A second entry sharing the session id of `cxEntry`. -/
def cxEntryDup : ResultEntry := ⟨"sid1", "/p", "sum", none, "semantic_match", "e2"⟩

/-- An entry with a distinct session id. -/
def cxEntryB : ResultEntry := ⟨"sid2", "/p", "sum", none, "semantic_match", "e3"⟩

/-- The summary record of the fixture session. -/
def wSummaryEntry : Entry :=
  ⟨some "summary", some "Fixed authentication login bug in user service", none, none⟩

/-- A session file whose summary mentions the authentication bug. -/
def wSess : SessFile := ⟨"session-abc123", [some wSummaryEntry], false, 100, []⟩

/-- The metadata `extract_session_info` yields for `wSess`. -/
def wInfo : SessionInfo :=
  ⟨"session-abc123", "/Users/test/projects/myapp",
   "Fixed authentication login bug in user service", none, none⟩

/-- A project directory holding `wSess`. -/
def wProject : Project := ⟨"-Users-test-projects-myapp", true, [wSess]⟩

/-- An environment whose backend connection fails. -/
def wEnvDown : RlmEnv := ⟨.unavailable "RLM down", fun _ _ => .ok []⟩

/-- An environment that connects but whose per-session search raises. -/
def wEnvErr : RlmEnv := ⟨.connected, fun _ _ => .error "boom"⟩

/-- A session file with no summary record (a user record only). -/
def wNoSummarySess : SessFile :=
  ⟨"sess-nosummary", [some ⟨some "user", none, some "2025-01-01T00:00:00", none⟩],
   false, 50, []⟩

/-- An inspect response whose only content item fails to parse. -/
def wInspectBad : RResult InspectDict := ⟨some [⟨some none⟩]⟩

/-- An inspect response that parses to a dict missing `chunk_count`. -/
def wInspectNoCount : RResult InspectDict := ⟨some [⟨some (some [("other", 3)])⟩]⟩

/-- An inspect response reporting twelve segments. -/
def wInspectTwelve : RResult InspectDict := ⟨some [⟨some (some [("chunk_count", 12)])⟩]⟩

/-- A project directory holding only the summary-less session. -/
def wNoSumProject : Project := ⟨"-Users-test-projects-nosummary", true, [wNoSummarySess]⟩

/-- A small session file within the size ceiling. -/
def wSmallFile : SessFile := ⟨"small", [], false, 10, ["a\n", "b\n"]⟩

/-- A session file whose stat size exceeds the ceiling. -/
def wBigFile : SessFile := ⟨"big", [], false, 500001, ["x\n", "y\n", "z\n"]⟩

/-! ## Helper lemmas -/

/-- Negative membership through `List.contains`. -/
theorem contains_eq_false_iff (l : List String) (a : String) :
    l.contains a = false ↔ a ∉ l := by
  rw [Bool.eq_false_iff]
  exact not_congr List.elem_iff

/-- The first component of `extractLoop` is `summaryFold`: timestamp and
model updates never touch the summary accumulator. -/
theorem extractLoop_fst (es : List (Option Entry)) :
    ∀ s t m, (extractLoop es s t m).1 = summaryFold es s := by
  induction es with
  | nil => intro s t m; rfl
  | cons oe rest ih =>
    intro s t m
    match oe with
    | none => exact ih s t m
    | some e =>
      by_cases h : (e.type == some "summary") = true
      · simp only [extractLoop, summaryFold, h, if_true]
        exact ih e.summary t m
      · simp only [extractLoop, summaryFold]
        rw [if_neg h, if_neg h]
        split
        · exact ih s e.timestamp m
        · split
          · exact ih s t e.messageModel
          · exact ih s t m

/-- Lemma: `summaryFold` yields the summary field of the last summary-typed
record, falling back to the initial accumulator. -/
theorem summaryFold_eq_lastSummary (es : List (Option Entry)) :
    ∀ s, summaryFold es s =
      (match lastSummaryEntry es with
       | some en => en.summary
       | none => s) := by
  induction es with
  | nil => intro s; rfl
  | cons oe rest ih =>
    intro s
    match oe with
    | none =>
      simp only [summaryFold, lastSummaryEntry]
      rw [ih s]
      cases lastSummaryEntry rest <;> rfl
    | some e =>
      by_cases h : (e.type == some "summary") = true
      · simp only [summaryFold, lastSummaryEntry, h, if_true]
        rw [ih e.summary]
        cases lastSummaryEntry rest <;> rfl
      · simp only [summaryFold, lastSummaryEntry, h, if_false]
        rw [ih s]
        cases lastSummaryEntry rest <;> rfl

/-- A transcript with no parseable summary-typed record has no last
summary record. -/
theorem lastSummaryEntry_eq_none (es : List (Option Entry))
    (h : ∀ oe ∈ es, ∀ en, oe = some en → ¬ en.type = some "summary") :
    lastSummaryEntry es = none := by
  induction es with
  | nil => rfl
  | cons oe rest ih =>
    have hr := ih fun x hx => h x (List.mem_cons_of_mem _ hx)
    simp only [lastSummaryEntry, hr]
    match oe with
    | none => rfl
    | some en =>
      have hne := h (some en) (List.mem_cons_self _ _) en rfl
      simp [hne]

/-! ## Claim C1 -/

/-- C1 counterexample: on a session file whose transcript holds two
parseable summary records ("First summary", then "Second summary"),
metadata extraction returns the summary of the second (latest) record,
not of the earliest one as the claim states. -/
theorem summary_first_wins_counterexample :
    (extract_session_info cxTwoSummaries "/p").map SessionInfo.summary =
      some "Second summary" ∧
    (extract_session_info cxTwoSummaries "/p").map SessionInfo.summary ≠
      some "First summary" := by
  decide

/-- C1 (amended): for every session file, metadata extraction captures the
summary from the last summary-typed record encountered (last occurrence
wins): if a file contains parseable summary records, the returned session
metadata carries the summary string of the latest one (falling back to the
placeholder when the summary field of that record is missing or empty). -/
theorem extract_summary_last_wins (f : SessFile) (p : String) (en : Entry)
    (hio : f.ioError = false)
    (hlast : lastSummaryEntry f.entries = some en) :
    (extract_session_info f p).map SessionInfo.summary =
      some (pyOr en.summary "No summary available") := by
  simp only [extract_session_info, hio, Bool.false_eq_true, if_false]
  rw [extractLoop_fst, summaryFold_eq_lastSummary, hlast]
  rfl

/-- C1 witness: the amended theorem applied to the two-summary file. -/
theorem extract_summary_last_wins_witness :
    cxTwoSummaries.ioError = false ∧
    lastSummaryEntry cxTwoSummaries.entries = some cxSummaryB ∧
    (extract_session_info cxTwoSummaries "/p").map SessionInfo.summary =
      some "Second summary" := by
  refine ⟨rfl, by decide, ?_⟩
  exact (extract_summary_last_wins cxTwoSummaries "/p" cxSummaryB rfl (by decide)).trans
    (by decide)

/-! ## Claim C7 -/

/-- C7: keyword extraction yields exactly the lowercase word tokens that
are not in the stop-word set and are at least 3 characters long; on
"How did I fix the authentication bug?" it yields exactly
["fix", "authentication", "bug"], excluding "how", "the" and "i". -/
theorem extract_keywords_spec :
    (∀ q w, w ∈ extract_keywords q ↔
      (w ∈ wordTokens (strLower q) ∧ w ∉ STOP_WORDS ∧ 3 ≤ w.length)) ∧
    extract_keywords "How did I fix the authentication bug?" =
      ["fix", "authentication", "bug"] ∧
    "fix" ∈ extract_keywords "How did I fix the authentication bug?" ∧
    "authentication" ∈ extract_keywords "How did I fix the authentication bug?" ∧
    "bug" ∈ extract_keywords "How did I fix the authentication bug?" ∧
    "how" ∉ extract_keywords "How did I fix the authentication bug?" ∧
    "the" ∉ extract_keywords "How did I fix the authentication bug?" ∧
    "i" ∉ extract_keywords "How did I fix the authentication bug?" := by
  refine ⟨?_, by decide, by decide, by decide, by decide, by decide, by decide, by decide⟩
  intro q w
  rw [extract_keywords, List.mem_filter, Bool.and_eq_true, Bool.not_eq_true',
    contains_eq_false_iff, decide_eq_true_eq]
  exact Iff.rfl

/-! ## Claim C8 -/

/-- C8: path decoding is total (a Lean function) and passthrough inputs —
strings not starting with the marker — are returned unchanged, hence
decoding is idempotent on them; decoding "-Users-richard-projects-foo"
yields "/Users/richard/projects/foo". -/
theorem decode_path_spec :
    (∀ s, ¬ strStartsWith s "-" = true →
      decode_path s = s ∧ decode_path (decode_path s) = decode_path s) ∧
    decode_path "-Users-richard-projects-foo" = "/Users/richard/projects/foo" := by
  constructor
  · intro s h
    have hs : decode_path s = s := by
      unfold decode_path
      rw [if_pos h]
    exact ⟨hs, by rw [hs, hs]⟩
  · decide

/-- C8 witness: the passthrough case at "regular-string". -/
theorem decode_path_spec_witness :
    ¬ strStartsWith "regular-string" "-" = true ∧
    decode_path "regular-string" = "regular-string" := by
  have h : ¬ strStartsWith "regular-string" "-" = true := by decide
  exact ⟨h, (decode_path_spec.1 "regular-string" h).1⟩

/-! ## Claim C4 -/

/-- The spec-side first-occurrence filter is a subsequence of its input. -/
theorem firstOccurrences_sublist (l : List ResultEntry) :
    ∀ seen, (firstOccurrences seen l).Sublist l := by
  induction l with
  | nil => intro seen; simp [firstOccurrences]
  | cons r rs ih =>
    intro seen
    by_cases h : seen.contains r.session_id
    · simp only [firstOccurrences, h, if_true]
      exact (ih seen).cons r
    · simp only [firstOccurrences, h, Bool.false_eq_true, if_false]
      exact (ih _).cons₂ r

/-- The dedup loop, below the cap, extends the accumulator with the capped
first-occurrence stream. -/
theorem dedupLoop_eq_take (max_results : Nat) (l : List ResultEntry) :
    ∀ seen unique, unique.length < max_results →
      dedupLoop max_results seen unique l =
        unique ++ (firstOccurrences seen l).take (max_results - unique.length) := by
  induction l with
  | nil => intro seen unique h; simp [dedupLoop, firstOccurrences]
  | cons r rs ih =>
    intro seen unique h
    by_cases hc : seen.contains r.session_id
    · simp only [dedupLoop, firstOccurrences, hc, if_true]
      exact ih seen unique h
    · simp only [dedupLoop, firstOccurrences, hc, Bool.false_eq_true, if_false]
      by_cases hm : max_results ≤ (unique ++ [r]).length
      · rw [if_pos hm]
        have hlen : max_results - unique.length = 1 := by
          rw [List.length_append, List.length_singleton] at hm
          omega
        rw [hlen]
        simp
      · rw [if_neg hm]
        have h1 : (unique ++ [r]).length < max_results := by
          rw [List.length_append, List.length_singleton] at hm ⊢
          omega
        rw [ih _ _ h1]
        have h2 : max_results - unique.length =
            (max_results - (unique ++ [r]).length) + 1 := by
          rw [List.length_append, List.length_singleton] at *
          omega
        rw [h2, List.take_succ_cons, List.append_assoc]
        rfl

/-- C4 counterexample: with cap 0 and a nonempty input, `deduplicate_results`
returns one entry (the append happens before the cap check), so the output
length exceeds the cap. -/
theorem deduplicate_cap_zero_counterexample :
    (deduplicate_results [cxEntry] 0).length = 1 ∧
    ¬ (deduplicate_results [cxEntry] 0).length ≤ 0 := by
  decide

/-- C4 (amended): for every input list and every cap of at least 1,
deduplication returns exactly the first occurrence of each session
identifier in arrival order, truncated at the cap; the output is a
subsequence of the input (relative order preserved) and its length never
exceeds the cap.  (With cap 0 the loop appends the first unique entry
before checking the cap and returns one entry.) -/
theorem deduplicate_results_spec (results : List ResultEntry) (max_results : Nat)
    (h : 1 ≤ max_results) :
    deduplicate_results results max_results =
      (firstOccurrences [] results).take max_results ∧
    (deduplicate_results results max_results).Sublist results ∧
    (deduplicate_results results max_results).length ≤ max_results := by
  have heq : deduplicate_results results max_results =
      (firstOccurrences [] results).take max_results := by
    have := dedupLoop_eq_take max_results results [] []
      (by simpa using h)
    simpa [deduplicate_results] using this
  refine ⟨heq, ?_, ?_⟩
  · rw [heq]
    exact (List.take_sublist _ _).trans (firstOccurrences_sublist results [])
  · rw [heq]
    exact List.length_take_le _ _

/-- C4 witness: cap 5 on a stream with a repeated session id keeps the
first occurrence of each id, in order. -/
theorem deduplicate_results_spec_witness :
    1 ≤ 5 ∧
    deduplicate_results [cxEntry, cxEntryDup, cxEntryB] 5 = [cxEntry, cxEntryB] := by
  refine ⟨by decide, ?_⟩
  have h := (deduplicate_results_spec [cxEntry, cxEntryDup, cxEntryB] 5 (by decide)).1
  exact h.trans (by decide)

/-! ## Claim C5 -/

/-- With no keywords, no session file is kept. -/
theorem sessionCandidate_nil_keywords (project_path : String) (f : SessFile) :
    sessionCandidate [] project_path f = none := by
  unfold sessionCandidate
  cases extract_session_info f project_path <;> rfl

/-- With no keywords, the per-project step leaves the accumulator alone. -/
theorem projectStep_nil_keywords (project_filter : Option String)
    (acc : List Matching) (p : Project) :
    projectStep [] project_filter acc p = acc := by
  unfold projectStep
  split
  · rfl
  · split
    · rfl
    · rw [List.filterMap_eq_nil_iff.mpr fun f _ => sessionCandidate_nil_keywords _ f,
        List.append_nil]

/-- C5: for every corpus and project filter, if the keyword set extracted
from the query is empty (empty query, or only stop words and short
tokens), the candidate filter matches zero sessions — an empty keyword set
never matches all sessions. -/
theorem empty_keywords_match_none (projects : List Project)
    (project_filter : Option String) (q : String)
    (hq : extract_keywords q = []) :
    find_matching_sessions projects (extract_keywords q) project_filter = [] := by
  rw [hq]
  unfold find_matching_sessions
  have hfold : ∀ acc : List Matching,
      projects.foldl (projectStep [] project_filter) acc = acc := by
    induction projects with
    | nil => intro acc; rfl
    | cons p ps ih =>
      intro acc
      rw [List.foldl_cons, projectStep_nil_keywords]
      exact ih acc
  rw [hfold]
  rfl

/-- C5 witness: a query of stop words and short tokens extracts no
keywords and matches nothing, even on a corpus with a session. -/
theorem empty_keywords_match_none_witness :
    extract_keywords "how did i" = [] ∧
    find_matching_sessions [wProject] (extract_keywords "how did i") none = [] := by
  have hq : extract_keywords "how did i" = [] := by decide
  exact ⟨hq, empty_keywords_match_none [wProject] none "how did i" hq⟩

/-! ## Claim C9 -/

/-- C9: content retrieval returns the whole file when the size is at or
below `MAX_SESSION_BYTES`; when the file exceeds the ceiling it returns
exactly the joined first `MAX_LINES_PER_SESSION` lines — at most that many
lines — rather than the whole file. -/
theorem read_session_content_spec (f : SessFile) :
    (f.size ≤ MAX_SESSION_BYTES →
      read_session_content f = String.join f.rawLines) ∧
    (MAX_SESSION_BYTES < f.size →
      read_session_content f =
        String.join (f.rawLines.take MAX_LINES_PER_SESSION) ∧
      (f.rawLines.take MAX_LINES_PER_SESSION).length ≤ MAX_LINES_PER_SESSION) := by
  constructor
  · intro h
    unfold read_session_content
    rw [if_pos h]
  · intro h
    constructor
    · unfold read_session_content
      rw [if_neg (by omega)]
    · exact List.length_take_le _ _

/-- C9 witness: the small-file and big-file branches at concrete files. -/
theorem read_session_content_spec_witness :
    (wSmallFile.size ≤ MAX_SESSION_BYTES ∧
      read_session_content wSmallFile = String.join wSmallFile.rawLines) ∧
    (MAX_SESSION_BYTES < wBigFile.size ∧
      read_session_content wBigFile =
        String.join (wBigFile.rawLines.take MAX_LINES_PER_SESSION) ∧
      (wBigFile.rawLines.take MAX_LINES_PER_SESSION).length ≤
        MAX_LINES_PER_SESSION) := by
  constructor
  · exact ⟨by decide, (read_session_content_spec wSmallFile).1 (by decide)⟩
  · exact ⟨by decide, (read_session_content_spec wBigFile).2 (by decide)⟩

/-! ## Claim C6 -/

/-- C6: the batched sub-query covers exactly the segment indices
0 .. min(segment_count, 5) - 1 — never more than 5 — where the segment
count defaults to 1 whenever the inspection response is unparseable or its
parsed object misses the `chunk_count` field. -/
theorem batch_chunk_indices_spec :
    (∀ sid q r, (batch_args sid q r).chunk_indices =
        pyRange (min (chunk_count_of r) 5) ∧
      (batch_args sid q r).chunk_indices.length ≤ 5 ∧
      (∀ i : Int, i ∈ (batch_args sid q r).chunk_indices ↔
        0 ≤ i ∧ i < min (chunk_count_of r) 5)) ∧
    (∀ r : RResult InspectDict,
      parse_rlm_json_response r = none → chunk_count_of r = 1) ∧
    (∀ (r : RResult InspectDict) (d : InspectDict),
      parse_rlm_json_response r = some d →
      dictLookupInt d "chunk_count" = none → chunk_count_of r = 1) := by
  refine ⟨?_, ?_, ?_⟩
  · intro sid q r
    refine ⟨rfl, ?_, ?_⟩
    · show (pyRange (min (chunk_count_of r) 5)).length ≤ 5
      rw [pyRange, List.length_map, List.length_range]
      omega
    · intro i
      show i ∈ pyRange (min (chunk_count_of r) 5) ↔ _
      rw [pyRange]
      simp only [List.mem_map, List.mem_range]
      constructor
      · rintro ⟨j, hj, rfl⟩
        rw [Int.ofNat_eq_coe]
        omega
      · rintro ⟨h0, h5⟩
        refine ⟨i.toNat, by omega, ?_⟩
        rw [Int.ofNat_eq_coe]
        omega
  · intro r h
    unfold chunk_count_of
    rw [h]
  · intro r d h1 h2
    unfold chunk_count_of
    rw [h1]
    show (if d.isEmpty = true then (1 : Int)
      else (dictLookupInt d "chunk_count").getD 1) = 1
    by_cases hd : d.isEmpty
    · rw [if_pos hd]
    · rw [if_neg hd, h2]
      rfl

/-- C6 witness: an unparseable inspect response defaults to one segment
(indices [0]); a parsed object missing the count also defaults; a reported
count of 12 is capped at indices [0,1,2,3,4]. -/
theorem batch_chunk_indices_spec_witness :
    parse_rlm_json_response wInspectBad = none ∧
    chunk_count_of wInspectBad = 1 ∧
    (batch_args "sid" "q" wInspectBad).chunk_indices =
      pyRange (min (chunk_count_of wInspectBad) 5) ∧
    (batch_args "sid" "q" wInspectBad).chunk_indices = [0] ∧
    dictLookupInt [("other", 3)] "chunk_count" = none ∧
    chunk_count_of wInspectNoCount = 1 ∧
    (batch_args "sid" "q" wInspectTwelve).chunk_indices = [0, 1, 2, 3, 4] := by
  refine ⟨rfl, batch_chunk_indices_spec.2.1 wInspectBad rfl,
    (batch_chunk_indices_spec.1 "sid" "q" wInspectBad).1, by decide, rfl,
    batch_chunk_indices_spec.2.2 wInspectNoCount [("other", 3)] rfl rfl, by decide⟩

/-! ## Claim C3 -/

/-- C3: a per-candidate error is caught and converted into exactly one
synthetic entry whose relevance tag differs from the semantic-match kind,
and every candidate contributes its own block to the accumulated results,
in order — no error aborts the loop. -/
theorem per_candidate_isolation (env : RlmEnv) (query : String)
    (sessions : List Matching) :
    searchResultsLoop env query sessions =
      (sessions.map (candidateContribution env query)).flatten ∧
    ∀ s e, env.search s query = .error e →
      candidateContribution env query s = [errorEntry s e] ∧
      (errorEntry s e).relevance = "keyword_match" ∧
      "keyword_match" ≠ "semantic_match" := by
  constructor
  · have hgen : ∀ (ss : List Matching) (acc : List ResultEntry),
        List.foldl (fun results session =>
          match env.search session query with
          | .ok rs => results ++ rs
          | .error e => results ++ [errorEntry session e]) acc ss =
        acc ++ (ss.map (candidateContribution env query)).flatten := by
      intro ss
      induction ss with
      | nil => intro acc; simp
      | cons s rest ih =>
        intro acc
        rw [List.foldl_cons, List.map_cons, List.flatten_cons]
        cases hs : env.search s query with
        | ok rs =>
          simp only [hs, ih, candidateContribution, List.append_assoc]
        | error e =>
          simp only [hs, ih, candidateContribution, List.append_assoc]
    rw [searchResultsLoop, hgen sessions []]
    rw [List.nil_append]
  · intro s e hs
    refine ⟨?_, rfl, by decide⟩
    unfold candidateContribution
    rw [hs]

/-- C3 witness: a search that raises on the only candidate yields exactly
the one synthetic entry and the loop completes. -/
theorem per_candidate_isolation_witness :
    wEnvErr.search ⟨wSess, wInfo⟩ "q" = Except.error "boom" ∧
    candidateContribution wEnvErr "q" ⟨wSess, wInfo⟩ =
      [errorEntry ⟨wSess, wInfo⟩ "boom"] ∧
    searchResultsLoop wEnvErr "q" [⟨wSess, wInfo⟩] =
      [errorEntry ⟨wSess, wInfo⟩ "boom"] := by
  refine ⟨rfl,
    ((per_candidate_isolation wEnvErr "q" [⟨wSess, wInfo⟩]).2 ⟨wSess, wInfo⟩ "boom"
      rfl).1, ?_⟩
  rw [(per_candidate_isolation wEnvErr "q" [⟨wSess, wInfo⟩]).1]
  decide

/-! ## Claim C2 -/

/-- C2: when the backend connection cannot be established and the
candidate list is non-empty, the recall handler returns exactly one result
entry per candidate up to `MAX_RESULTS`, each tagged `keyword_match` with
the fixed explanatory excerpt, and the response carries the degraded-mode
note. -/
theorem recall_degraded_mode (env : RlmEnv) (projects : List Project)
    (query : String) (project_filter : Option String) (msg : String)
    (hq : query ≠ "")
    (hconn : env.connect = ConnOutcome.unavailable msg)
    (hne : find_matching_sessions projects (extract_keywords query) project_filter ≠ []) :
    handle_memory_recall env (some projects) query project_filter =
      RecallResult.ok
        (((find_matching_sessions projects (extract_keywords query)
            project_filter).take MAX_RESULTS).map fun s =>
          build_result_entry s.info "keyword_match"
            "RLM unavailable - showing keyword matches only")
        (find_matching_sessions projects (extract_keywords query)
          project_filter).length
        (some "Semantic search unavailable - showing keyword matches") none ∧
    (((find_matching_sessions projects (extract_keywords query)
        project_filter).take MAX_RESULTS).map fun s =>
      build_result_entry s.info "keyword_match"
        "RLM unavailable - showing keyword matches only").length =
      min MAX_RESULTS
        (find_matching_sessions projects (extract_keywords query)
          project_filter).length ∧
    ∀ r ∈ (((find_matching_sessions projects (extract_keywords query)
        project_filter).take MAX_RESULTS).map fun s =>
      build_result_entry s.info "keyword_match"
        "RLM unavailable - showing keyword matches only"),
      r.relevance = "keyword_match" ∧
      r.excerpt = "RLM unavailable - showing keyword matches only" := by
  refine ⟨?_, ?_, ?_⟩
  · unfold handle_memory_recall
    rw [if_neg (by simpa using hq)]
    show (if (find_matching_sessions projects (extract_keywords query)
        project_filter).isEmpty = true then _ else _) = _
    rw [if_neg (by simpa using hne), hconn]
  · rw [List.length_map, List.length_take]
  · intro r hr
    rw [List.mem_map] at hr
    obtain ⟨s, _, rfl⟩ := hr
    exact ⟨rfl, rfl⟩

/-- C2 witness: the degraded handler on a one-candidate corpus. -/
theorem recall_degraded_mode_witness :
    "authentication bug" ≠ "" ∧
    wEnvDown.connect = ConnOutcome.unavailable "RLM down" ∧
    find_matching_sessions [wProject] (extract_keywords "authentication bug")
      none ≠ [] ∧
    handle_memory_recall wEnvDown (some [wProject]) "authentication bug" none =
      RecallResult.ok
        [build_result_entry wInfo "keyword_match"
          "RLM unavailable - showing keyword matches only"] 1
        (some "Semantic search unavailable - showing keyword matches") none := by
  refine ⟨by decide, rfl, by decide, ?_⟩
  have h := (recall_degraded_mode wEnvDown [wProject] "authentication bug" none
    "RLM down" (by decide) rfl (by decide)).1
  exact h.trans (by decide)

/-! ## Claim C10 -/

/-- A corpus of one project directory holding one matching session file
yields exactly that candidate. -/
theorem find_matching_singleton (pname : String) (f : SessFile)
    (kws : List String) (info : SessionInfo)
    (hinfo : extract_session_info f (decode_path pname) = some info)
    (hmatch : sessionMatch kws info = true) :
    find_matching_sessions [⟨pname, true, [f]⟩] kws none = [⟨f, info⟩] := by
  unfold find_matching_sessions
  rw [List.foldl_cons, List.foldl_nil]
  have hcand : sessionCandidate kws (decode_path pname) f = some ⟨f, info⟩ := by
    unfold sessionCandidate
    rw [hinfo]
    show (if sessionMatch kws info = true
        then some (⟨f, info⟩ : Matching) else none) =
      some (⟨f, info⟩ : Matching)
    rw [if_pos hmatch]
  have hstep : projectStep kws none [] ⟨pname, true, [f]⟩ =
      [f].filterMap (sessionCandidate kws (decode_path pname)) := rfl
  have hfm : [f].filterMap (sessionCandidate kws (decode_path pname)) =
      [⟨f, info⟩] := by
    simp only [List.filterMap_cons, hcand, List.filterMap_nil]
  rw [hstep, hfm]
  rfl

/-- C10: a session file with no parseable summary record gets the fixed
placeholder summary "No summary available", and the candidate filter
matches keywords against that placeholder text — the session is selected
whenever some query keyword is a substring of "no summary available". -/
theorem no_summary_placeholder_candidate
    (stem : String) (entries : List (Option Entry)) (sz : Nat)
    (raw : List String) (pname : String) (kws : List String) (kw : String)
    (hns : ∀ oe ∈ entries, ∀ en, oe = some en → ¬ en.type = some "summary")
    (hkw : kw ∈ kws)
    (hsub : strContains "no summary available" kw = true) :
    ∃ info : SessionInfo,
      extract_session_info ⟨stem, entries, false, sz, raw⟩ (decode_path pname) =
        some info ∧
      info.summary = "No summary available" ∧
      find_matching_sessions [⟨pname, true, [⟨stem, entries, false, sz, raw⟩]⟩]
        kws none = [⟨⟨stem, entries, false, sz, raw⟩, info⟩] := by
  have hsum : (extractLoop entries none none none).1 = none := by
    rw [extractLoop_fst, summaryFold_eq_lastSummary,
      lastSummaryEntry_eq_none entries hns]
  have hinfo : extract_session_info ⟨stem, entries, false, sz, raw⟩
      (decode_path pname) =
      some { session_id := stem
             project := decode_path pname
             summary := "No summary available"
             timestamp := (extractLoop entries none none none).2.1
             model := (extractLoop entries none none none).2.2 } := by
    show some
      ({ session_id := stem
         project := decode_path pname
         summary := pyOr (extractLoop entries none none none).1 "No summary available"
         timestamp := (extractLoop entries none none none).2.1
         model := (extractLoop entries none none none).2.2 } : SessionInfo) =
      some
      { session_id := stem
        project := decode_path pname
        summary := "No summary available"
        timestamp := (extractLoop entries none none none).2.1
        model := (extractLoop entries none none none).2.2 }
    rw [hsum]
    rfl
  have hmatch : sessionMatch kws
      { session_id := stem
        project := decode_path pname
        summary := "No summary available"
        timestamp := (extractLoop entries none none none).2.1
        model := (extractLoop entries none none none).2.2 } = true := by
    show (!kws.isEmpty && kws.any fun k =>
      strContains (strLower (pyOr (some "No summary available") "")) k) = true
    have hlow : strLower (pyOr (some "No summary available") "") =
        "no summary available" := by decide
    rw [hlow, Bool.and_eq_true]
    constructor
    · cases kws with
      | nil => cases hkw
      | cons a as => rfl
    · rw [List.any_eq_true]
      exact ⟨kw, hkw, hsub⟩
  exact ⟨_, hinfo, rfl, find_matching_singleton pname _ kws _ hinfo hmatch⟩

/-- C10 witness: the summary-less session, queried with the keyword
"summary", is selected with the placeholder summary. -/
theorem no_summary_placeholder_candidate_witness :
    (∀ oe ∈ wNoSummarySess.entries, ∀ en, oe = some en →
      ¬ en.type = some "summary") ∧
    "summary" ∈ ["summary"] ∧
    strContains "no summary available" "summary" = true ∧
    ∃ info : SessionInfo,
      extract_session_info wNoSummarySess
        (decode_path "-Users-test-projects-nosummary") = some info ∧
      info.summary = "No summary available" ∧
      find_matching_sessions [wNoSumProject] ["summary"] none =
        [⟨wNoSummarySess, info⟩] := by
  refine ⟨by decide, by decide, by decide, ?_⟩
  exact no_summary_placeholder_candidate "sess-nosummary"
    [some ⟨some "user", none, some "2025-01-01T00:00:00", none⟩] 50 []
    "-Users-test-projects-nosummary" ["summary"] "summary"
    (by decide) (by decide) (by decide)

end CCRecall
